import Mathlib

/-!
Shallow embedding of the chat-relay server in `src/server/src/main.rs`.

Lines received and sent on the wire are modelled as lists of characters
(`Str`); the four co-indexed maps of `Registry` are modelled as association
lists with HashMap insert/remove semantics; the per-connection outbound
mpsc channel is modelled as a `Chan` holding its enqueued messages plus an
open/closed flag (a closed channel is one whose writer task has exited, so
`send` on it fails); the `oneshot` cancellation handles are modelled by the
set of ids holding one.  Fallible operations return a success flag or an
`Option`, mirroring `Result`/`?` in the source.
-/

namespace ChatServer

/-- Wire text: Rust `&str`/`String` as a list of characters. -/
abbrev Str := List Char

/-! ### Generic association-list operations (HashMap model) -/

/-- Lookup in an association list: first binding of the key wins
(association lists below never hold a key twice). -/
def lookupA {K V : Type} [DecidableEq K] : List (K × V) → K → Option V
  | [], _ => none
  | (k', v) :: t, k => if k' = k then some v else lookupA t k

/-- `HashMap::remove`: drop every binding of the key. -/
def eraseA {K V : Type} [DecidableEq K] (l : List (K × V)) (k : K) : List (K × V) :=
  l.filter (fun p => p.1 ≠ k)

/-- `HashMap::insert`: bind the key, replacing any previous binding. -/
def insertA {K V : Type} [DecidableEq K] (l : List (K × V)) (k : K) (v : V) : List (K × V) :=
  (k, v) :: eraseA l k

/-- Remove an id from the set of ids holding a cancellation handle. -/
def eraseN (l : List Nat) (id : Nat) : List Nat :=
  l.filter (fun x => x ≠ id)

/-! ### String helpers mirroring the Rust std functions used by the server -/

/-- Rust `str::split_once(sep)`: split at the first occurrence of `sep`,
`none` when `sep` does not occur. -/
def splitOnce (sep : Char) : Str → Option (Str × Str)
  | [] => none
  | c :: rest =>
    if c = sep then some ([], rest)
    else
      match splitOnce sep rest with
      | some (a, b) => some (c :: a, b)
      | none => none

/-- Rust `str::strip_prefix` on character lists. -/
def stripPfx : Str → Str → Option Str
  | [], s => some s
  | _ :: _, [] => none
  | a :: ps, b :: ss => if a = b then stripPfx ps ss else none

/-- ASCII whitespace recognizer used by `trim` (the protocol only ever
meets ASCII whitespace). -/
def isWspace (c : Char) : Bool :=
  c = ' ' || c = '\t' || c = '\n' || c = '\r'

/-- Rust `str::trim`: drop whitespace at both ends. -/
def trim (s : Str) : Str :=
  ((s.dropWhile isWspace).reverse.dropWhile isWspace).reverse

/-- Rust `char::to_ascii_lowercase`. -/
def asciiLower (c : Char) : Char :=
  if 'A' ≤ c && c ≤ 'Z' then Char.ofNat (c.toNat + 32) else c

/-- Rust `str::eq_ignore_ascii_case`. -/
def eqIgnoreAsciiCase : Str → Str → Bool
  | [], [] => true
  | a :: as_, b :: bs => asciiLower a = asciiLower b && eqIgnoreAsciiCase as_ bs
  | _, _ => false

/-- Value of an ASCII digit. -/
def digitVal (c : Char) : Option Nat :=
  if '0' ≤ c && c ≤ '9' then some (c.toNat - 48) else none

/-- Accumulate decimal digits; `none` on any non-digit. -/
def digitsVal (s : Str) : Option Nat :=
  s.foldl
    (fun acc c =>
      match acc, digitVal c with
      | some a, some d => some (a * 10 + d)
      | _, _ => none)
    (some 0)

/-- Rust `str::parse::<u64>()`: optional leading `+`, then one or more
ASCII digits, rejecting the empty string and values at or above 2^64. -/
def parseU64 (s : Str) : Option Nat :=
  let t := match s with
    | '+' :: r => r
    | _ => s
  if t = [] then none
  else
    match digitsVal t with
    | some v => if v < 2 ^ 64 then some v else none
    | none => none

/-- Decimal rendering of an id, as Rust `format!` does. -/
def natStr (n : Nat) : Str := (Nat.repr n).data

/-! ### The Registry (lines 20–26 of main.rs) -/

/-- Model of one connection's outbound mpsc channel: whether its receiver
(the writer task) is still alive, and the messages enqueued so far. -/
structure Chan where
  isOpen : Bool
  msgs : List Str
deriving DecidableEq

/-- The four co-indexed maps of `struct Registry`. -/
structure Registry where
  by_id : List (Nat × Chan)
  id_by_name : List (Str × Nat)
  name_by_id : List (Nat × Str)
  shutdown : List Nat
deriving DecidableEq

/-- `Registry::default()`. -/
def emptyRegistry : Registry := ⟨[], [], [], []⟩

/-! ### Protocol text constants (exact strings of main.rs) -/

def errTimeoutMsg : Str := "ERR timeout waiting for NICK".data
def errExpectedMsg : Str := "ERR expected: NICK <name>".data
def errNameInUseMsg : Str := "ERR name already in use".data
def serverKickedMsg : Str := "[server] kicked".data
def serverUserKickedMsg : Str := "[server] user kicked".data
def serverUserNotFoundMsg : Str := "[server] user not found".data
def serverPermDeniedMsg : Str := "[server] permission denied".data
def serverInvalidIdMsg : Str := "[server] invalid ID".data
def serverTargetDisconnectedMsg : Str := "[server] target disconnected".data
def serverTargetNotFoundMsg : Str := "[server] target not found".data
def serverTargetOfflineMsg : Str := "[server] target offline".data
def adminName : Str := "admin".data

/-- Usage line sent together with the welcome (main.rs line 132). -/
def welcomeUsageMsg : Str :=
  "[server] commands: TO <name> <msg> | TOID <id> <msg> | KICK <name> | KICKID <id>".data

/-- Usage line sent on an unrecognized command (main.rs line 222). -/
def shortUsageMsg : Str :=
  "[server] commands: TO | TOID | KICK | KICKID".data

/-- `WELCOME {my_id} {name}` (main.rs line 131). -/
def welcomeMsg (id : Nat) (name : Str) : Str :=
  "WELCOME ".data ++ natStr id ++ " ".data ++ name

/-- `from {name}({my_id}): {msg}` (main.rs lines 197 and 215). -/
def fromPayload (name : Str) (id : Nat) (msg : Str) : Str :=
  "from ".data ++ name ++ "(".data ++ natStr id ++ "): ".data ++ msg

/-! ### Parsing functions (main.rs lines 250–273) -/

/-- `parse_nick` (main.rs lines 250–257). -/
def parse_nick (line : Str) : Option Str :=
  match splitOnce ' ' line with
  | none => none
  | some (cmd, nick) =>
    if eqIgnoreAsciiCase cmd "NICK".data then some (trim nick) else none

/-- `parse_to` (main.rs lines 259–265): `splitn(3, ' ')` requiring the
literal first token `TO` and all three pieces present. -/
def parse_to (line : Str) : Option (Str × Str) :=
  match splitOnce ' ' line with
  | none => none
  | some (t1, r1) =>
    if t1 = "TO".data then
      match splitOnce ' ' r1 with
      | none => none
      | some (name, rest) => some (name, rest)
    else none

/-- `parse_toid` (main.rs lines 267–273). -/
def parse_toid (line : Str) : Option (Nat × Str) :=
  match splitOnce ' ' line with
  | none => none
  | some (t1, r1) =>
    if t1 = "TOID".data then
      match splitOnce ' ' r1 with
      | none => none
      | some (idS, rest) =>
        match parseU64 idS with
        | some id => some (id, rest)
        | none => none
    else none

/-! ### Registry operations (main.rs lines 230–248, 275–284) -/

/-- `find_id_by_name` (main.rs lines 230–233). -/
def find_id_by_name (reg : Registry) (name : Str) : Option Nat :=
  lookupA reg.id_by_name name

/-- `send_to_id` (main.rs lines 275–284): look up the outbound channel and
enqueue the message; the returned flag is `Ok`/`Err` of the source
(`false` when the id is absent or the channel's receiver is gone). -/
def send_to_id (reg : Registry) (id : Nat) (msg : Str) : Registry × Bool :=
  match lookupA reg.by_id id with
  | none => (reg, false)
  | some ch =>
    if ch.isOpen then
      ({ reg with by_id := insertA reg.by_id id ⟨ch.isOpen, ch.msgs ++ [msg]⟩ }, true)
    else (reg, false)

/-- `disconnect_client` (main.rs lines 235–248): fire and drop the
cancellation handle, drop the id→name binding and, when one existed, the
inverse name→id binding, and drop the outbound channel handle. -/
def disconnect_client (r : Registry) (id : Nat) : Registry :=
  { by_id := eraseA r.by_id id,
    id_by_name :=
      match lookupA r.name_by_id id with
      | some n => eraseA r.id_by_name n
      | none => r.id_by_name,
    name_by_id := eraseA r.name_by_id id,
    shutdown := eraseN r.shutdown id }

/-! ### Registration (the two lock sections of handle_client) -/

/-- The read-lock section, main.rs lines 101–110: `contains_key` check of
`id_by_name`. -/
def nameTakenCheck (reg : Registry) (name : Str) : Bool :=
  (lookupA reg.id_by_name name).isSome

/-- The write-lock section, main.rs lines 123–129: insert into all four
maps, the fresh connection getting a fresh open channel. -/
def registerInsert (r : Registry) (id : Nat) (name : Str) : Registry :=
  { by_id := insertA r.by_id id ⟨true, []⟩,
    id_by_name := insertA r.id_by_name name id,
    name_by_id := insertA r.name_by_id id name,
    shutdown := id :: eraseN r.shutdown id }

/-! ### The handshake (main.rs lines 76–132) -/

/-- What the first `next_line` await of the handshake produced. -/
inductive HsInput
  | timeout
  | eof
  | readErr
  | line (s : Str)

/-- How the handshake ended: `failed r` is `handle_client` returning `Err`
after best-effort writing `r` straight to the socket; `active name` is the
session entering the command loop under `name`. -/
inductive HsEnd
  | failed (reply : Option Str)
  | active (name : Str)
deriving DecidableEq

/-- The handshake phase of `handle_client` (main.rs lines 76–132): read
the first line under the handshake timeout, parse `NICK <name>`, reject a
taken name, otherwise insert into the Registry and enqueue the welcome and
usage lines. -/
def handshake (reg : Registry) (myId : Nat) : HsInput → Registry × HsEnd
  | .timeout => (reg, .failed (some errTimeoutMsg))
  | .eof => (reg, .failed none)
  | .readErr => (reg, .failed none)
  | .line s =>
    match parse_nick s with
    | none => (reg, .failed (some errExpectedMsg))
    | some name =>
      if nameTakenCheck reg name then (reg, .failed (some errNameInUseMsg))
      else
        let r1 := registerInsert reg myId name
        let r2 := (send_to_id r1 myId (welcomeMsg myId name)).1
        let r3 := (send_to_id r2 myId welcomeUsageMsg).1
        (r3, .active name)

/-! ### The Active-phase command loop body (main.rs lines 154–222) -/

/-- Outcome of processing one line: `ok` continues the loop, `err` is the
handler aborting with `Err` (a `?` on a failed reply to the sender). -/
inductive LineRes
  | ok
  | err
deriving DecidableEq

def kickPfx : Str := "KICK ".data
def kickidPfx : Str := "KICKID ".data

/-- The command dispatch of `handle_client` on an already-trimmed line
(main.rs lines 156–222), in source order: KICK, KICKID, TO, TOID, usage. -/
def handleTrimmed (reg : Registry) (myId : Nat) (myName : Str) (line : Str) :
    Registry × LineRes :=
  match stripPfx kickPfx line with
  | some targetName =>
    match find_id_by_name reg targetName with
    | some tid =>
      let r1 := (send_to_id reg tid serverKickedMsg).1
      let r2 := disconnect_client r1 tid
      let (r3, ok3) := send_to_id r2 myId serverUserKickedMsg
      (r3, if ok3 then .ok else .err)
    | none =>
      let (r1, ok1) := send_to_id reg myId serverUserNotFoundMsg
      (r1, if ok1 then .ok else .err)
  | none =>
  match stripPfx kickidPfx line with
  | some idStr =>
    if myName = adminName then
      match parseU64 idStr with
      | some tid =>
        let r1 := (send_to_id reg tid serverKickedMsg).1
        let r2 := disconnect_client r1 tid
        let (r3, ok3) := send_to_id r2 myId serverUserKickedMsg
        (r3, if ok3 then .ok else .err)
      | none =>
        let (r1, ok1) := send_to_id reg myId serverInvalidIdMsg
        (r1, if ok1 then .ok else .err)
    else
      let (r1, ok1) := send_to_id reg myId serverPermDeniedMsg
      (r1, if ok1 then .ok else .err)
  | none =>
  match parse_to line with
  | some (tname, msg) =>
    match find_id_by_name reg tname with
    | some tid =>
      let (r1, ok1) := send_to_id reg tid (fromPayload myName myId msg)
      if ok1 then (r1, .ok)
      else
        let (r2, ok2) := send_to_id r1 myId serverTargetDisconnectedMsg
        (r2, if ok2 then .ok else .err)
    | none =>
      let (r1, ok1) := send_to_id reg myId serverTargetNotFoundMsg
      (r1, if ok1 then .ok else .err)
  | none =>
  match parse_toid line with
  | some (tid, msg) =>
    let (r1, ok1) := send_to_id reg tid (fromPayload myName myId msg)
    if ok1 then (r1, .ok)
    else
      let (r2, ok2) := send_to_id r1 myId serverTargetOfflineMsg
      (r2, if ok2 then .ok else .err)
  | none =>
    let (r1, ok1) := send_to_id reg myId shortUsageMsg
    (r1, if ok1 then .ok else .err)

/-- One iteration of the command loop: trim the raw line (main.rs line
154) and dispatch. -/
def handleLine (reg : Registry) (myId : Nat) (myName : Str) (rawLine : Str) :
    Registry × LineRes :=
  handleTrimmed reg myId myName (trim rawLine)

/-! ### The accept loop (main.rs lines 54–65) -/

/-- The accept loop of `main` run against a finite script of accept
outcomes: `accept().await?` propagates a failure out of the loop, an
accepted connection is spawned and the loop continues.  Returns the
connections actually accepted and the error that ended the loop, if any. -/
def acceptLoop : List (Except String Nat) → List Nat × Option String
  | [] => ([], none)
  | .ok c :: rest =>
    let (cs, e) := acceptLoop rest
    (c :: cs, e)
  | .error e :: _ => ([], some e)

/-! ### Sequential Registry histories (for the round-trip invariant) -/

/-- One sequential Registry operation: a registration attempt as
`handle_client` performs it (check then insert) or a `disconnect_client`. -/
inductive RegOp
  | reg (id : Nat) (name : Str)
  | dereg (id : Nat)

/-- Apply one operation. A registration whose nickname is already taken
fails and leaves the Registry unchanged, as in main.rs lines 101–110. -/
def applyOp (r : Registry) : RegOp → Registry
  | .reg id name => if nameTakenCheck r name then r else registerInsert r id name
  | .dereg id => disconnect_client r id

/-- Run a history from the empty Registry. -/
def runOps (ops : List RegOp) : Registry :=
  ops.foldl applyOp emptyRegistry

/-! ## Association-list lemmas -/

theorem lookupA_eraseA_self {K V : Type} [DecidableEq K] (l : List (K × V)) (k : K) :
    lookupA (eraseA l k) k = none := by
  induction l with
  | nil => rfl
  | cons p t ih =>
    by_cases h : p.1 = k
    · simpa [eraseA, List.filter_cons, h] using ih
    · simpa [eraseA, List.filter_cons, h, lookupA] using ih

theorem lookupA_eraseA_ne {K V : Type} [DecidableEq K] (l : List (K × V)) (k k' : K)
    (h : k' ≠ k) : lookupA (eraseA l k) k' = lookupA l k' := by
  induction l with
  | nil => rfl
  | cons p t ih =>
    by_cases hp : p.1 = k
    · have hk : k ≠ k' := Ne.symm h
      simp [eraseA, List.filter_cons, hp, lookupA, hk] at ih ⊢
      exact ih
    · by_cases hp' : p.1 = k'
      · simp [eraseA, List.filter_cons, hp, lookupA, hp', h]
      · simp [eraseA, List.filter_cons, hp, lookupA, hp'] at ih ⊢
        exact ih

theorem lookupA_insertA_self {K V : Type} [DecidableEq K] (l : List (K × V)) (k : K) (v : V) :
    lookupA (insertA l k v) k = some v := by
  simp [insertA, lookupA]

theorem lookupA_insertA_ne {K V : Type} [DecidableEq K] (l : List (K × V)) (k k' : K) (v : V)
    (h : k' ≠ k) : lookupA (insertA l k v) k' = lookupA l k' := by
  have : k ≠ k' := fun hk => h hk.symm
  simp [insertA, lookupA, this]
  exact lookupA_eraseA_ne l k k' h

theorem eraseA_eraseA {K V : Type} [DecidableEq K] (l : List (K × V)) (k : K) :
    eraseA (eraseA l k) k = eraseA l k := by
  simp [eraseA]

theorem eraseA_of_lookupA_none {K V : Type} [DecidableEq K] (l : List (K × V)) (k : K)
    (h : lookupA l k = none) : eraseA l k = l := by
  induction l with
  | nil => rfl
  | cons p t ih =>
    by_cases hp : p.1 = k
    · simp [lookupA, hp] at h
    · simp [lookupA, hp] at h
      simp [eraseA, List.filter_cons, hp] at ih ⊢
      exact ih h

theorem eraseN_eraseN (l : List Nat) (id : Nat) :
    eraseN (eraseN l id) id = eraseN l id := by
  simp [eraseN]

theorem eraseN_of_not_mem (l : List Nat) (id : Nat) (h : id ∉ l) : eraseN l id = l := by
  induction l with
  | nil => rfl
  | cons x t ih =>
    have hx : x ≠ id := fun he => h (he ▸ List.mem_cons_self x t)
    have ht : id ∉ t := fun hm => h (List.mem_cons_of_mem x hm)
    simp [eraseN, List.filter_cons, hx] at ih ⊢
    exact ih ht

/-! ## send_to_id characterization -/

theorem send_to_id_open (reg : Registry) (id : Nat) (m : Str) (ch : Chan)
    (h : lookupA reg.by_id id = some ch) (ho : ch.isOpen = true) :
    send_to_id reg id m =
      ({ reg with by_id := insertA reg.by_id id ⟨true, ch.msgs ++ [m]⟩ }, true) := by
  simp [send_to_id, h, ho]

theorem send_to_id_absent (reg : Registry) (id : Nat) (m : Str)
    (h : lookupA reg.by_id id = none) : send_to_id reg id m = (reg, false) := by
  simp [send_to_id, h]

theorem send_to_id_closed (reg : Registry) (id : Nat) (m : Str) (ch : Chan)
    (h : lookupA reg.by_id id = some ch) (ho : ch.isOpen = false) :
    send_to_id reg id m = (reg, false) := by
  simp [send_to_id, h, ho]

theorem send_to_id_fst_id_by_name (reg : Registry) (id : Nat) (m : Str) :
    ((send_to_id reg id m).1).id_by_name = reg.id_by_name := by
  cases h : lookupA reg.by_id id with
  | none => simp [send_to_id, h]
  | some ch =>
    cases ho : ch.isOpen
    · simp [send_to_id, h, ho]
    · simp [send_to_id, h, ho]

theorem send_to_id_fst_name_by_id (reg : Registry) (id : Nat) (m : Str) :
    ((send_to_id reg id m).1).name_by_id = reg.name_by_id := by
  cases h : lookupA reg.by_id id with
  | none => simp [send_to_id, h]
  | some ch =>
    cases ho : ch.isOpen
    · simp [send_to_id, h, ho]
    · simp [send_to_id, h, ho]

theorem send_to_id_fst_shutdown (reg : Registry) (id : Nat) (m : Str) :
    ((send_to_id reg id m).1).shutdown = reg.shutdown := by
  cases h : lookupA reg.by_id id with
  | none => simp [send_to_id, h]
  | some ch =>
    cases ho : ch.isOpen
    · simp [send_to_id, h, ho]
    · simp [send_to_id, h, ho]

theorem send_to_id_by_id_lookup_ne (reg : Registry) (id j : Nat) (m : Str) (h : j ≠ id) :
    lookupA ((send_to_id reg id m).1).by_id j = lookupA reg.by_id j := by
  cases hl : lookupA reg.by_id id with
  | none => simp [send_to_id, hl]
  | some ch =>
    cases ho : ch.isOpen
    · simp [send_to_id, hl, ho]
    · simp [send_to_id, hl, ho]
      exact lookupA_insertA_ne _ _ _ _ h

/-! ## disconnect_client characterization -/

theorem disconnect_by_id_self (r : Registry) (id : Nat) :
    lookupA (disconnect_client r id).by_id id = none := by
  simp [disconnect_client, lookupA_eraseA_self]

theorem disconnect_name_by_id_self (r : Registry) (id : Nat) :
    lookupA (disconnect_client r id).name_by_id id = none := by
  simp [disconnect_client, lookupA_eraseA_self]

theorem disconnect_by_id_lookup_ne (r : Registry) (id j : Nat) (h : j ≠ id) :
    lookupA (disconnect_client r id).by_id j = lookupA r.by_id j := by
  simp [disconnect_client]
  exact lookupA_eraseA_ne _ _ _ h

theorem disconnect_name_by_id_lookup_ne (r : Registry) (id j : Nat) (h : j ≠ id) :
    lookupA (disconnect_client r id).name_by_id j = lookupA r.name_by_id j := by
  simp [disconnect_client]
  exact lookupA_eraseA_ne _ _ _ h

theorem disconnect_of_unregistered (r : Registry) (id : Nat)
    (h1 : lookupA r.by_id id = none) (h2 : lookupA r.name_by_id id = none)
    (h3 : id ∉ r.shutdown) : disconnect_client r id = r := by
  cases r with
  | mk b i n s =>
    simp only [disconnect_client] at *
    simp [h2, eraseA_of_lookupA_none _ _ h1, eraseA_of_lookupA_none _ _ h2,
      eraseN_of_not_mem _ _ h3]

/-! ## Parsing shape lemmas -/

theorem splitOnce_append_noSpace (p r : Str) (hp : ∀ c ∈ p, c ≠ ' ') :
    splitOnce ' ' (p ++ ' ' :: r) = some (p, r) := by
  induction p with
  | nil => rfl
  | cons c t ih =>
    have hc : c ≠ ' ' := hp c (List.mem_cons_self c t)
    have ht : ∀ x ∈ t, x ≠ ' ' := fun x hx => hp x (List.mem_cons_of_mem c hx)
    simp [splitOnce, hc, ih ht]

theorem trim_of_allWspace (s : Str) (h : ∀ c ∈ s, isWspace c = true) : trim s = [] := by
  have : s.dropWhile isWspace = [] := List.dropWhile_eq_nil_iff.mpr h
  simp [trim, this]

/-! ## Branch-discrimination lemmas for the command dispatch -/

theorem stripPfx_kick_of_kickid (s : Str) :
    stripPfx kickPfx (kickidPfx ++ s) = none := rfl

theorem stripPfx_kickid_self (s : Str) :
    stripPfx kickidPfx (kickidPfx ++ s) = some s := rfl

theorem stripPfx_kick_of_to (s : Str) :
    stripPfx kickPfx ('T' :: 'O' :: ' ' :: s) = none := rfl

theorem stripPfx_kickid_of_to (s : Str) :
    stripPfx kickidPfx ('T' :: 'O' :: ' ' :: s) = none := rfl

theorem splitOnce_to_head (r : Str) :
    splitOnce ' ' ('T' :: 'O' :: ' ' :: r) = some ("TO".data, r) := rfl

theorem parse_to_form (tname rest : Str) (h : ∀ c ∈ tname, c ≠ ' ') :
    parse_to ('T' :: 'O' :: ' ' :: (tname ++ ' ' :: rest)) = some (tname, rest) := by
  simp [parse_to, splitOnce_to_head, splitOnce_append_noSpace tname rest h]

/-! ## Round-trip invariant of sequential histories -/

/-- The id→name→id round trip: every registered id's nickname resolves
back to that id. -/
def RoundTrip (r : Registry) : Prop :=
  ∀ id n, lookupA r.name_by_id id = some n → lookupA r.id_by_name n = some id

theorem roundTrip_registerInsert (r : Registry) (id : Nat) (name : Str)
    (hrt : RoundTrip r) (hfree : lookupA r.id_by_name name = none) :
    RoundTrip (registerInsert r id name) := by
  intro id' n' hn'
  simp only [registerInsert] at hn' ⊢
  by_cases hid : id' = id
  · subst hid
    rw [lookupA_insertA_self] at hn'
    cases hn'
    exact lookupA_insertA_self _ _ _
  · rw [lookupA_insertA_ne _ _ _ _ hid] at hn'
    by_cases hname : n' = name
    · subst hname
      exact absurd (hrt id' n' hn') (by simp [hfree])
    · rw [lookupA_insertA_ne _ _ _ _ hname]
      exact hrt id' n' hn'

theorem roundTrip_disconnect (r : Registry) (id : Nat) (hrt : RoundTrip r) :
    RoundTrip (disconnect_client r id) := by
  intro id' n' hn'
  simp only [disconnect_client] at hn' ⊢
  by_cases hid : id' = id
  · subst hid
    rw [lookupA_eraseA_self] at hn'
    cases hn'
  · rw [lookupA_eraseA_ne _ _ _ hid] at hn'
    cases hname : lookupA r.name_by_id id with
    | none =>
      simp only [hname]
      exact hrt id' n' hn'
    | some n =>
      simp only [hname]
      by_cases hnn : n' = n
      · exfalso
        have h1 : lookupA r.id_by_name n = some id := hrt id n hname
        have h2 : lookupA r.id_by_name n' = some id' := hrt id' n' hn'
        rw [hnn, h1] at h2
        exact hid (Option.some.inj h2).symm
      · rw [lookupA_eraseA_ne _ _ _ hnn]
        exact hrt id' n' hn'

theorem roundTrip_applyOp (r : Registry) (op : RegOp) (hrt : RoundTrip r) :
    RoundTrip (applyOp r op) := by
  cases op with
  | reg id name =>
    simp only [applyOp]
    by_cases h : nameTakenCheck r name
    · simpa [h] using hrt
    · cases hc : lookupA r.id_by_name name with
      | some v => exact absurd (by simp [nameTakenCheck, hc]) h
      | none => simpa [h] using roundTrip_registerInsert r id name hrt hc
  | dereg id =>
    simpa [applyOp] using roundTrip_disconnect r id hrt

theorem roundTrip_foldl (ops : List RegOp) (r : Registry) (hrt : RoundTrip r) :
    RoundTrip (ops.foldl applyOp r) := by
  induction ops generalizing r with
  | nil => exact hrt
  | cons op t ih => exact ih (applyOp r op) (roundTrip_applyOp r op hrt)

/-! ## Sample registries used by witnesses -/

/-- A registry holding id 1 under nickname `a` with a fresh open channel. -/
def regA : Registry := registerInsert emptyRegistry 1 "a".data

/-- A registry holding id 1 under nickname `admin`. -/
def regAdmin : Registry := registerInsert emptyRegistry 1 "admin".data

/-- A registry holding id 1 under `a` and id 2 under `b`. -/
def regAB : Registry := registerInsert regA 2 "b".data

/-! ## The claims -/

/-- C1: the claim asserts that the taken-name check and the four-fold
insertion behave as one atomic operation, so a registration against a
still-registered nickname can never overwrite an entry.  The code performs
the check in a read-lock section (main.rs lines 101–110) and the insertion
in a separate write-lock section (lines 123–129), so two concurrent
handshakes for the same nickname can both pass the check before either
inserts.  This theorem evaluates that interleaving: starting empty, both
checks for `a` report the name free, then both inserts run; the later
insert overwrites `id_by_name[a]` (now id 2) while id 1 is still fully
registered (`name_by_id` and `by_id` still hold it), exactly the overwrite
the claim rules out. -/
theorem c1_register_check_insert_race :
    nameTakenCheck emptyRegistry "a".data = false ∧
    (let r2 := registerInsert (registerInsert emptyRegistry 1 "a".data) 2 "a".data
     lookupA r2.id_by_name "a".data = some 2 ∧
     lookupA r2.name_by_id 1 = some "a".data ∧
     (lookupA r2.by_id 1).isSome = true ∧
     lookupA r2.id_by_name "a".data ≠ some 1) := by decide

/-- C2, counterexample: the claim says an accept failure never stops the
accept loop, but `listener.accept().await?` (main.rs line 55) propagates
the failure out of `main`.  On the script [failure, connection 7] the loop
ends with the error and connection 7 is never accepted. -/
theorem c2_accept_failure_counterexample :
    acceptLoop [Except.error "accept failed", Except.ok 7] =
      ([], some "accept failed") ∧
    7 ∉ (acceptLoop [Except.error "accept failed", Except.ok 7]).1 := by decide

/-- C2, amended: a failure of the accept operation terminates the accept
loop — the error propagates out of the loop and no connection arriving
after the failure is ever accepted. -/
theorem c2_accept_failure_fatal (pre post : List (Except String Nat)) (e : String)
    (h : ∀ x ∈ pre, ∃ c, x = Except.ok c) :
    acceptLoop (pre ++ Except.error e :: post) = ((acceptLoop pre).1, some e) := by
  induction pre with
  | nil => simp [acceptLoop]
  | cons x t ih =>
    obtain ⟨c, rfl⟩ := h x (List.mem_cons_self x t)
    have ht : ∀ y ∈ t, ∃ c, y = Except.ok c := fun y hy => h y (List.mem_cons_of_mem _ hy)
    simp [acceptLoop, ih ht]

/-- Witness for C2's amended theorem at a concrete script. -/
theorem c2_accept_failure_fatal_witness :
    (∀ x ∈ [Except.ok (ε := String) 3], ∃ c, x = Except.ok c) ∧
    acceptLoop ([Except.ok 3] ++ Except.error "boom" :: [Except.ok 7]) =
      ((acceptLoop [Except.ok 3]).1, some "boom") :=
  ⟨fun x hx => ⟨3, by rw [List.mem_singleton] at hx; exact hx⟩,
   c2_accept_failure_fatal [Except.ok 3] [Except.ok 7] "boom"
     (fun x hx => ⟨3, by rw [List.mem_singleton] at hx; exact hx⟩)⟩

/-- C3: after any sequential history of registration attempts and
deregistrations starting from the empty Registry, every currently
registered id round-trips — its `name_by_id` nickname, looked back up in
`id_by_name`, yields the same id.  This holds for all histories (the
taken-name check enforces distinctness), in particular for those with
distinct nicknames, and applies to every prefix of a history, i.e. after
every operation until the id is deregistered. -/
theorem c3_roundtrip_invariant (ops : List RegOp) (id : Nat) (n : Str)
    (h : lookupA (runOps ops).name_by_id id = some n) :
    lookupA (runOps ops).id_by_name n = some id :=
  roundTrip_foldl ops emptyRegistry
    (fun _ _ hx => by simp [emptyRegistry, lookupA] at hx) id n h

/-- Witness for C3 on the history [register 1 a, register 2 b]. -/
theorem c3_roundtrip_invariant_witness :
    lookupA (runOps [RegOp.reg 1 "a".data, RegOp.reg 2 "b".data]).name_by_id 1 =
      some "a".data ∧
    lookupA (runOps [RegOp.reg 1 "a".data, RegOp.reg 2 "b".data]).id_by_name "a".data =
      some 1 :=
  ⟨by decide, c3_roundtrip_invariant [RegOp.reg 1 "a".data, RegOp.reg 2 "b".data]
    1 "a".data (by decide)⟩

/-- C4: a handshake that fails — first line not parsing as `NICK <name>`,
a read error, or the handshake timeout — leaves the Registry exactly as it
was (so no lookup ever observes the connection) and ends the session with
the corresponding best-effort diagnostic: `ERR expected: NICK <name>` for
a malformed line, the timeout notice for expiry, none for a read error. -/
theorem c4_handshake_failure_no_registration (reg : Registry) (myId : Nat) :
    (∀ s, parse_nick s = none →
        handshake reg myId (HsInput.line s) = (reg, HsEnd.failed (some errExpectedMsg))) ∧
    handshake reg myId HsInput.readErr = (reg, HsEnd.failed none) ∧
    handshake reg myId HsInput.timeout = (reg, HsEnd.failed (some errTimeoutMsg)) := by
  refine ⟨fun s hs => ?_, rfl, rfl⟩
  simp [handshake, hs]

/-- Witness for C4 at the malformed first line `HELLO` against a
non-empty registry. -/
theorem c4_handshake_failure_no_registration_witness :
    parse_nick "HELLO".data = none ∧
    handshake regA 7 (HsInput.line "HELLO".data) =
      (regA, HsEnd.failed (some errExpectedMsg)) :=
  ⟨by decide, (c4_handshake_failure_no_registration regA 7).1 "HELLO".data (by decide)⟩

/-- C8: `disconnect_client` is idempotent — a second application is the
identity on the result of the first — applying it to an id that was never
registered leaves the Registry unchanged, and one application removes all
four entries of the id (its channel, its id→name binding, its cancellation
handle, and the name→id binding of the nickname it held). -/
theorem c8_deregister_idempotent (r : Registry) (id : Nat) :
    disconnect_client (disconnect_client r id) id = disconnect_client r id ∧
    (lookupA r.by_id id = none → lookupA r.name_by_id id = none →
      id ∉ r.shutdown → disconnect_client r id = r) ∧
    lookupA (disconnect_client r id).by_id id = none ∧
    lookupA (disconnect_client r id).name_by_id id = none ∧
    id ∉ (disconnect_client r id).shutdown ∧
    (∀ n, lookupA r.name_by_id id = some n →
      lookupA (disconnect_client r id).id_by_name n = none) := by
  refine ⟨?_, fun h1 h2 h3 => disconnect_of_unregistered r id h1 h2 h3,
    disconnect_by_id_self r id, disconnect_name_by_id_self r id, ?_, fun n hn => ?_⟩
  · cases r with
    | mk b i nm s =>
      simp [disconnect_client, lookupA_eraseA_self, eraseA_eraseA, eraseN_eraseN]
  · simp [disconnect_client, eraseN]
  · simp [disconnect_client, hn, lookupA_eraseA_self]

/-- Witness for C8: deleting the never-registered id 5 from `regA` is the
identity, and deleting id 1 clears the name→id binding of `a`. -/
theorem c8_deregister_idempotent_witness :
    (lookupA regA.by_id 5 = none ∧ lookupA regA.name_by_id 5 = none ∧
      5 ∉ regA.shutdown ∧ disconnect_client regA 5 = regA) ∧
    (lookupA regA.name_by_id 1 = some "a".data ∧
      lookupA (disconnect_client regA 1).id_by_name "a".data = none) :=
  ⟨⟨by decide, by decide, by decide,
    (c8_deregister_idempotent regA 5).2.1 (by decide) (by decide) (by decide)⟩,
   ⟨by decide, (c8_deregister_idempotent regA 1).2.2.2.2.2 "a".data (by decide)⟩⟩

/-- C10: `parse_nick` accepts the command word case-insensitively and
needs a space after it: any line splitting at its first space into a token
ASCII-case-equal to `NICK` and a remainder yields `some` of the trimmed
remainder; the bare word `NICK` (no space) is rejected; `NICK` followed
only by whitespace yields `some ""`; and the empty nickname is accepted by
the handshake and registered when free. -/
theorem c10_parse_nick_spec :
    (∀ pre rest, (∀ c ∈ pre, c ≠ ' ') → eqIgnoreAsciiCase pre "NICK".data = true →
        parse_nick (pre ++ ' ' :: rest) = some (trim rest)) ∧
    parse_nick "NICK".data = none ∧
    (∀ ws, (∀ c ∈ ws, isWspace c = true) →
        parse_nick ("NICK ".data ++ ws) = some []) ∧
    (∀ reg myId, lookupA reg.id_by_name [] = none →
        (handshake reg myId (HsInput.line "NICK ".data)).2 = HsEnd.active [] ∧
        lookupA (handshake reg myId (HsInput.line "NICK ".data)).1.id_by_name [] =
          some myId) := by
  have hpn : ∀ ws : Str, parse_nick ("NICK ".data ++ ws) = some (trim ws) := fun ws => by
    have hsp : splitOnce ' ' ('N' :: 'I' :: 'C' :: 'K' :: ' ' :: ws) =
        some (['N', 'I', 'C', 'K'], ws) := rfl
    have heq : eqIgnoreAsciiCase ['N', 'I', 'C', 'K'] ['N', 'I', 'C', 'K'] = true := by decide
    simp [parse_nick, hsp, heq]
  refine ⟨fun pre rest hp he => ?_, rfl, fun ws hw => ?_, fun reg myId hfree => ?_⟩
  · simp [parse_nick, splitOnce_append_noSpace pre rest hp, he]
  · rw [hpn ws, trim_of_allWspace ws hw]
  · have hstep : parse_nick "NICK ".data = some [] := rfl
    constructor
    · simp [handshake, hstep, nameTakenCheck, hfree]
    · simp only [handshake, hstep, nameTakenCheck, hfree, Option.isSome_none,
        Bool.false_eq_true, if_false]
      rw [send_to_id_fst_id_by_name, send_to_id_fst_id_by_name]
      simp [registerInsert, lookupA_insertA_self]

/-- C5: a `KICKID <id>` line from a sender whose nickname is not the
literal `admin` only appends `[server] permission denied` to the sender's
own outbound queue: the session continues, every other connection's
channel is untouched, and the three other Registry maps are unchanged (no
notice to the target, no teardown, no Registry mutation). -/
theorem c5_kickid_non_admin_denied (reg : Registry) (myId : Nat)
    (myName rawLine idStr : Str) (ch : Chan)
    (hline : trim rawLine = kickidPfx ++ idStr)
    (hadmin : myName ≠ adminName)
    (hch : lookupA reg.by_id myId = some ch) (hopen : ch.isOpen = true) :
    handleLine reg myId myName rawLine =
      ({ reg with by_id := insertA reg.by_id myId ⟨true, ch.msgs ++ [serverPermDeniedMsg]⟩ },
        LineRes.ok) ∧
    (∀ j, j ≠ myId →
      lookupA (handleLine reg myId myName rawLine).1.by_id j = lookupA reg.by_id j) ∧
    (handleLine reg myId myName rawLine).1.id_by_name = reg.id_by_name ∧
    (handleLine reg myId myName rawLine).1.name_by_id = reg.name_by_id ∧
    (handleLine reg myId myName rawLine).1.shutdown = reg.shutdown := by
  have heq : handleLine reg myId myName rawLine =
      ({ reg with by_id := insertA reg.by_id myId ⟨true, ch.msgs ++ [serverPermDeniedMsg]⟩ },
        LineRes.ok) := by
    simp only [handleLine, hline, handleTrimmed, stripPfx_kick_of_kickid,
      stripPfx_kickid_self]
    simp [hadmin, send_to_id_open reg myId serverPermDeniedMsg ch hch hopen]
  refine ⟨heq, fun j hj => ?_, by rw [heq], by rw [heq], by rw [heq]⟩
  rw [heq]
  exact lookupA_insertA_ne _ _ _ _ hj

/-- Witness for C5: sender `a` (id 1) issues `KICKID 2` against a registry
holding `a` and `b`; only the sender's queue gains the denial. -/
theorem c5_kickid_non_admin_denied_witness :
    trim "KICKID 2".data = kickidPfx ++ "2".data ∧
    handleLine regAB 1 "a".data "KICKID 2".data =
      ({ regAB with by_id := insertA regAB.by_id 1 ⟨true, [serverPermDeniedMsg]⟩ },
        LineRes.ok) :=
  ⟨by decide,
   (c5_kickid_non_admin_denied regAB 1 "a".data "KICKID 2".data "2".data ⟨true, []⟩
      (by decide) (by decide) (by decide) rfl).1⟩

/-- C6, counterexample: the claim promises the `[server] user kicked`
reply for every parsable id, in particular for the sender's own id.  But
`KICKID 1` issued by admin id 1 deregisters the sender before the reply is
attempted, so `send_to_id` fails, the `?` aborts the handler, and the
final registry holds no channel at all — nobody received
`[server] user kicked`. -/
theorem c6_kickid_admin_self_counterexample :
    (handleLine regAdmin 1 "admin".data "KICKID 1".data).2 = LineRes.err ∧
    (handleLine regAdmin 1 "admin".data "KICKID 1".data).1.by_id = [] := by decide

/-- C6, amended: for an admin sender and `KICKID <id>` with `<id>` parsing
to an id other than the sender's own, the sender's queue gains
`[server] user kicked` and the session continues, regardless of whether
the id is registered; when the id is unregistered the command leaves the
Registry untouched apart from that reply (the failed `kicked` notice is
not surfaced); an unparsable id yields `[server] invalid ID`.  Kicking
one's own id instead deregisters the sender first, so the reply cannot be
delivered and the session ends in error. -/
theorem c6_kickid_admin_semantics (reg : Registry) (myId : Nat)
    (myName rawLine idStr : Str) (ch : Chan)
    (hline : trim rawLine = kickidPfx ++ idStr)
    (hadmin : myName = adminName)
    (hch : lookupA reg.by_id myId = some ch) (hopen : ch.isOpen = true) :
    (∀ tid, parseU64 idStr = some tid → tid ≠ myId →
      (handleLine reg myId myName rawLine).2 = LineRes.ok ∧
      lookupA (handleLine reg myId myName rawLine).1.by_id myId =
        some ⟨true, ch.msgs ++ [serverUserKickedMsg]⟩) ∧
    (∀ tid, parseU64 idStr = some tid → tid ≠ myId →
      lookupA reg.by_id tid = none → lookupA reg.name_by_id tid = none →
      tid ∉ reg.shutdown →
      handleLine reg myId myName rawLine =
        ({ reg with by_id := insertA reg.by_id myId ⟨true, ch.msgs ++ [serverUserKickedMsg]⟩ },
          LineRes.ok)) ∧
    (parseU64 idStr = none →
      handleLine reg myId myName rawLine =
        ({ reg with by_id := insertA reg.by_id myId ⟨true, ch.msgs ++ [serverInvalidIdMsg]⟩ },
          LineRes.ok)) := by
  refine ⟨fun tid hp hne => ?_, fun tid hp hne h1 h2 h3 => ?_, fun hp => ?_⟩
  · have hne' : myId ≠ tid := Ne.symm hne
    have hr2 : lookupA (disconnect_client ((send_to_id reg tid serverKickedMsg).1) tid).by_id
        myId = some ch := by
      rw [disconnect_by_id_lookup_ne _ _ _ hne', send_to_id_by_id_lookup_ne _ _ _ _ hne']
      exact hch
    simp only [handleLine, hline, handleTrimmed, stripPfx_kick_of_kickid,
      stripPfx_kickid_self, hadmin, hp]
    simp [send_to_id_open _ myId serverUserKickedMsg ch hr2 hopen, lookupA_insertA_self]
  · have e1 : send_to_id reg tid serverKickedMsg = (reg, false) :=
      send_to_id_absent reg tid _ h1
    have e2 : disconnect_client reg tid = reg := disconnect_of_unregistered reg tid h1 h2 h3
    simp only [handleLine, hline, handleTrimmed, stripPfx_kick_of_kickid,
      stripPfx_kickid_self, hadmin, hp, e1]
    simp only [e2]
    simp [send_to_id_open reg myId serverUserKickedMsg ch hch hopen]
  · simp only [handleLine, hline, handleTrimmed, stripPfx_kick_of_kickid,
      stripPfx_kickid_self, hadmin, hp]
    simp [send_to_id_open reg myId serverInvalidIdMsg ch hch hopen]

/-- Witness for C6's amended theorem: admin id 1 issues `KICKID 99` with
id 99 unregistered; only the `user kicked` reply is appended. -/
theorem c6_kickid_admin_semantics_witness :
    trim "KICKID 99".data = kickidPfx ++ "99".data ∧
    handleLine regAdmin 1 "admin".data "KICKID 99".data =
      ({ regAdmin with by_id := insertA regAdmin.by_id 1 ⟨true, [serverUserKickedMsg]⟩ },
        LineRes.ok) :=
  ⟨by decide,
   (c6_kickid_admin_semantics regAdmin 1 "admin".data "KICKID 99".data "99".data
      ⟨true, []⟩ (by decide) rfl (by decide) rfl).2.1 99 (by decide) (by decide)
      (by decide) (by decide) (by decide)⟩

/-- C7: for an Active-phase line `TO <name> <rest>`: when `<name>`
resolves to a registered id with a live channel, the payload
`from <sender>(<id>): <rest>` is appended to that target's queue and
nothing else changes; when `<name>` resolves but delivery fails, the
sender's queue instead gains `[server] target disconnected`; when `<name>`
is not registered it gains `[server] target not found`. -/
theorem c7_to_routing (reg : Registry) (myId : Nat)
    (myName rawLine tname rest : Str) (ch : Chan)
    (hline : trim rawLine = 'T' :: 'O' :: ' ' :: (tname ++ ' ' :: rest))
    (hnosp : ∀ c ∈ tname, c ≠ ' ')
    (hch : lookupA reg.by_id myId = some ch) (hopen : ch.isOpen = true) :
    (∀ tid tch, lookupA reg.id_by_name tname = some tid →
      lookupA reg.by_id tid = some tch → tch.isOpen = true →
      handleLine reg myId myName rawLine =
        ({ reg with
            by_id := insertA reg.by_id tid ⟨true, tch.msgs ++ [fromPayload myName myId rest]⟩ },
          LineRes.ok)) ∧
    (∀ tid, lookupA reg.id_by_name tname = some tid →
      send_to_id reg tid (fromPayload myName myId rest) = (reg, false) →
      handleLine reg myId myName rawLine =
        ({ reg with
            by_id := insertA reg.by_id myId ⟨true, ch.msgs ++ [serverTargetDisconnectedMsg]⟩ },
          LineRes.ok)) ∧
    (lookupA reg.id_by_name tname = none →
      handleLine reg myId myName rawLine =
        ({ reg with
            by_id := insertA reg.by_id myId ⟨true, ch.msgs ++ [serverTargetNotFoundMsg]⟩ },
          LineRes.ok)) := by
  refine ⟨fun tid tch htid htch htchopen => ?_, fun tid htid hfail => ?_, fun hnone => ?_⟩
  · simp only [handleLine, hline, handleTrimmed, stripPfx_kick_of_to,
      stripPfx_kickid_of_to, parse_to_form tname rest hnosp, find_id_by_name, htid]
    simp [send_to_id_open reg tid _ tch htch htchopen]
  · simp only [handleLine, hline, handleTrimmed, stripPfx_kick_of_to,
      stripPfx_kickid_of_to, parse_to_form tname rest hnosp, find_id_by_name, htid, hfail]
    simp [send_to_id_open reg myId serverTargetDisconnectedMsg ch hch hopen]
  · simp only [handleLine, hline, handleTrimmed, stripPfx_kick_of_to,
      stripPfx_kickid_of_to, parse_to_form tname rest hnosp, find_id_by_name, hnone]
    simp [send_to_id_open reg myId serverTargetNotFoundMsg ch hch hopen]

/-- Witness for C7: `a` (id 1) sends `TO b hi` in a registry holding `a`
and `b`; `b`'s queue (id 2) gains the payload. -/
theorem c7_to_routing_witness :
    trim "TO b hi".data = 'T' :: 'O' :: ' ' :: ("b".data ++ ' ' :: "hi".data) ∧
    handleLine regAB 1 "a".data "TO b hi".data =
      ({ regAB with
          by_id := insertA regAB.by_id 2 ⟨true, [fromPayload "a".data 1 "hi".data]⟩ },
        LineRes.ok) :=
  ⟨by decide,
   (c7_to_routing regAB 1 "a".data "TO b hi".data "b".data "hi".data ⟨true, []⟩
      (by decide) (by decide) (by decide) rfl).1 2 ⟨true, []⟩ (by decide) (by decide) rfl⟩

/-- C9, counterexample: an unknown Active-phase line is answered with
`[server] commands: TO | TOID | KICK | KICKID` (main.rs line 222), which
is not the same string as the command summary sent with the welcome
(main.rs line 132), contradicting the claim that the two coincide. -/
theorem c9_usage_line_counterexample :
    lookupA (handleLine regA 1 "a".data "hello".data).1.by_id 1 =
      some ⟨true, [shortUsageMsg]⟩ ∧
    shortUsageMsg ≠ welcomeUsageMsg := by decide

/-- C9, amended: every Active-phase line that, after trimming, matches
none of the four commands (including the empty line) is answered with the
usage line `[server] commands: TO | TOID | KICK | KICKID` — a shorter
summary than the one sent with the welcome — and nothing else changes. -/
theorem c9_unknown_command_usage (reg : Registry) (myId : Nat)
    (myName rawLine : Str) (ch : Chan)
    (h1 : stripPfx kickPfx (trim rawLine) = none)
    (h2 : stripPfx kickidPfx (trim rawLine) = none)
    (h3 : parse_to (trim rawLine) = none)
    (h4 : parse_toid (trim rawLine) = none)
    (hch : lookupA reg.by_id myId = some ch) (hopen : ch.isOpen = true) :
    handleLine reg myId myName rawLine =
      ({ reg with by_id := insertA reg.by_id myId ⟨true, ch.msgs ++ [shortUsageMsg]⟩ },
        LineRes.ok) := by
  simp only [handleLine, handleTrimmed, h1, h2, h3, h4]
  simp [send_to_id_open reg myId shortUsageMsg ch hch hopen]

/-- Witness for C9's amended theorem at the empty line. -/
theorem c9_unknown_command_usage_witness :
    parse_to (trim []) = none ∧
    handleLine regA 1 "a".data [] =
      ({ regA with by_id := insertA regA.by_id 1 ⟨true, [shortUsageMsg]⟩ },
        LineRes.ok) :=
  ⟨by decide,
   c9_unknown_command_usage regA 1 "a".data [] ⟨true, []⟩ (by decide) (by decide)
     (by decide) (by decide) (by decide) rfl⟩

/-- Witness for C10: lowercase `nick  bob ` parses to the trimmed `bob`,
`NICK` plus a tab-and-space tail parses to the empty nickname, and the
empty nickname registers against the empty Registry. -/
theorem c10_parse_nick_spec_witness :
    parse_nick ("nick".data ++ ' ' :: " bob ".data) = some (trim " bob ".data) ∧
    parse_nick ("NICK ".data ++ "\t ".data) = some [] ∧
    (handshake emptyRegistry 1 (HsInput.line "NICK ".data)).2 = HsEnd.active [] :=
  ⟨c10_parse_nick_spec.1 "nick".data " bob ".data (by decide) (by decide),
   c10_parse_nick_spec.2.2.1 "\t ".data (by decide),
   (c10_parse_nick_spec.2.2.2 emptyRegistry 1 (by decide)).1⟩

end ChatServer
